import Mathlib

/-!
Shallow embedding of `packages/cli/lib/LocalDevManager.js` (the local
development watch-and-sync orchestrator of the hubspot-cli repository).

Pure data and state transitions are translated directly from the source.
External collaborators (dev-server bridge, remote build API, ignore rules,
extension allow-list, `path` functions) are parameters; their observable
invocations are recorded in an effect trace.  Async methods are modelled
sequentially: one `await` chain is one Lean function, and queued upload
tasks run inline in submission order (single logical thread, cf. spec §5).
-/

namespace LocalDevMgr

/-- `WATCH_EVENTS` of the source: the four chokidar event kinds. -/
inductive WatchEvent
  | add
  | change
  | unlink
  | unlinkDir
deriving DecidableEq, BEq, Repr

/-- `UPLOAD_PERMISSIONS` of the source. -/
inductive UploadPermission
  | always
  | manual
  | never
deriving DecidableEq, BEq, Repr

/-- The dev-mode status line (`updateDevModeStatus` lang keys). -/
inductive DevModeStatus
  | clean
  | supportedChange
  | uploadPending
  | manualUpload
  | manualUploadRequired
  | noUploadsAllowed
deriving DecidableEq, BEq, Repr

/-- `EXIT_CODES` (external enum `./enums/exitCodes`): success / error. -/
inductive ExitCode
  | success
  | error
deriving DecidableEq, BEq, Repr

/-- The `changeInfo` record built in `handleWatchEvent`. -/
structure ChangeInfo where
  event : WatchEvent
  filePath : String
  remotePath : String
deriving DecidableEq, BEq, Repr

/-- An entry of `this.standbyChanges`: a change plus its `supported` flag
(the spread `{ ...changeInfo, supported }` in the source). -/
structure StandbyChange where
  info : ChangeInfo
  supported : Bool
deriving DecidableEq, BEq, Repr

/-- The response of `DevServerManager.notify`. -/
structure NotifyResponse where
  uploadRequired : Bool
deriving DecidableEq, BEq, Repr

/-- Outcome of the awaited `DevServerManager.notify` call (resolves or rejects). -/
inductive NotifyOutcome
  | ok (r : NotifyResponse)
  | err
deriving DecidableEq, BEq, Repr

/-- Outcome of the remote `queueBuild` API call. -/
inductive QueueBuildOutcome
  | ok
  | missingProvision
  | otherError
deriving DecidableEq, BEq, Repr

/-- Outcome of the remote `provisionBuild` API call. -/
inductive ProvisionOutcome
  | ok (buildId : Nat)
  | lockedError
  | otherError
deriving DecidableEq, BEq, Repr

/-- Outcome of the remote `cancelStagedBuild` API call. -/
inductive CancelOutcome
  | ok
  | buildNotInProgress
  | otherError
deriving DecidableEq, BEq, Repr

/-- Observable invocations of external collaborators, in program order. -/
inductive Effect
  | notifyCall (info : ChangeInfo)
  | executeCall (info : ChangeInfo)
  | pauseQueue
  | onIdle
  | queueStart
  | enqueueTask (info : ChangeInfo)
  | armDebounce
  | queueBuildCall
  | uploadFileCall (filePath remotePath : String)
  | deleteFileCall (remotePath : String)
  | provisionCall
  | cancelStagedBuildCall
  | pollCall
  | watcherClose
  | cleanupServers
  | stopSession
  | logDebug
  | logInfo (key : String)
  | logApiError
  | spinniesAdd (key : String)
  | spinniesUpdate (key : String)
  | processExit (code : ExitCode)
deriving DecidableEq, BEq, Repr

/-- The mutable instance fields of `LocalDevManager` that the watch logic
reads and writes (spinnies rendering is kept in the trace instead). -/
structure LDMState where
  uploadPermission : UploadPermission
  standbyChanges : List StandbyChange
  /-- the pending `setTimeout` handle, as its expiry time, if armed -/
  debouncedBuild : Option Nat
  currentStagedBuildId : Option Nat
  /-- `this.uploadQueue.isPaused` -/
  queuePaused : Bool
  devModeStatus : DevModeStatus
deriving DecidableEq, BEq, Repr

/-- External pure collaborators used by the orchestrator:
`isAllowedExtension(filePath, [jsx])`, `shouldIgnoreFile(filePath, true)`
and `path.relative(projectSourceDir, filePath)`. -/
structure Ctx where
  allowedExt : String → Bool
  ignoreFile : String → Bool
  relPath : String → String

/-- `BUILD_DEBOUNCE_TIME` of the source. -/
def BUILD_DEBOUNCE_TIME : Nat := 3500

/-- `needle` occurs as a contiguous substring of the second list
(JavaScript `String.prototype.includes`). -/
def hasSubstring (needle : List Char) : List Char → Bool
  | [] => needle.isEmpty
  | c :: rest => needle.isPrefixOf (c :: rest) || hasSubstring needle rest

/-- `changeInfo.filePath.includes(dist)` of `handleWatchEvent`. -/
def includesDist (s : String) : Bool :=
  hasSubstring "dist".toList s.toList

/-- `addChangeToStandbyQueue(changeInfo)`: for `add`/`change` events the
change is dropped unless the extension allow-list admits the file; any
event whose path the ignore rules match is dropped; otherwise the change
is pushed onto `this.standbyChanges`. -/
def addChangeToStandbyQueue (ctx : Ctx) (c : StandbyChange) (s : LDMState) : LDMState :=
  if (c.info.event = .add ∨ c.info.event = .change) ∧ ctx.allowedExt c.info.filePath = false then
    s
  else if ctx.ignoreFile c.info.filePath = true then
    s
  else
    { s with standbyChanges := s.standbyChanges ++ [c] }

/-- `sendChanges(changeInfo)`: one upload-queue task body.  `add`/`change`
call `uploadFileToBuild`, `unlink`/`unlinkDir` call `deleteFileFromBuild`;
an API failure is caught and only debug-logged, so the trace below is the
shape of the successful path and of the caught-failure path alike. -/
def sendChanges (info : ChangeInfo) : List Effect :=
  [.spinniesAdd "uploadingChange"]
    ++ (match info.event with
        | .add | .change => [.uploadFileCall info.filePath info.remotePath]
        | .unlink | .unlinkDir => [.deleteFileCall info.remotePath])
    ++ [.spinniesUpdate "uploadedChange"]

/-- The timer slot update of `debounceQueueBuild`: `clearTimeout` on any
pending handle, then `setTimeout(..., BUILD_DEBOUNCE_TIME)` — the previous
pending expiry is discarded whatever it was. -/
def armDebounceTimer (now : Nat) (pending : Option Nat) : Option Nat :=
  match pending with
  | some _ => some (now + BUILD_DEBOUNCE_TIME)
  | none => some (now + BUILD_DEBOUNCE_TIME)

/-- `debounceQueueBuild()`: under permission `always` the status becomes
`uploadPending`; the single timer slot is re-armed. -/
def debounceQueueBuild (now : Nat) (s : LDMState) : LDMState × List Effect :=
  let s₁ := if s.uploadPermission = .always then
      { s with devModeStatus := .uploadPending }
    else s
  ({ s₁ with debouncedBuild := armDebounceTimer now s₁.debouncedBuild }, [.armDebounce])

/-- `pauseUploadQueue()`: `this.uploadQueue.pause()` then `await onIdle()`. -/
def pauseUploadQueue (s : LDMState) : LDMState × List Effect :=
  ({ s with queuePaused := true }, [.pauseQueue, .onIdle])

/-- `hasAnyUnsupportedStandbyChanges()`. -/
def hasAnyUnsupportedStandbyChanges (s : LDMState) : Bool :=
  s.standbyChanges.any (fun c => !c.supported)

/-- `notifyServers(changeInfo)`: awaits `DevServerManager.notify`; on
rejection the default `{ uploadRequired: true }` stands and a non-fatal
`devServerNotifyError` status line is added. -/
def notifyServers (info : ChangeInfo) (outcome : NotifyOutcome) :
    NotifyResponse × List Effect :=
  match outcome with
  | .ok r => (r, [.notifyCall info])
  | .err => ({ uploadRequired := true }, [.notifyCall info, .spinniesAdd "devServerNotifyError"])

/-- One task body produced by `flushStandbyChanges`: re-arm the debounce
timer when permission is `always` and the queue is not paused, then
`sendChanges`. -/
def runFlushTask (now : Nat) (c : StandbyChange) (s : LDMState) : LDMState × List Effect :=
  if s.uploadPermission = .always ∧ s.queuePaused = false then
    let d := debounceQueueBuild now s
    (d.1, [.enqueueTask c.info] ++ d.2 ++ sendChanges c.info)
  else
    (s, [.enqueueTask c.info] ++ sendChanges c.info)

/-- Run the flushed task list in submission order. -/
def runFlushTasks (now : Nat) (cs : List StandbyChange) (s : LDMState) : LDMState × List Effect :=
  match cs with
  | [] => (s, [])
  | c :: rest =>
    let r₁ := runFlushTask now c s
    let r₂ := runFlushTasks now rest r₁.1
    (r₂.1, r₁.2 ++ r₂.2)

/-- `flushStandbyChanges()`: when `this.standbyChanges.length` is nonzero,
`uploadQueue.addAll` receives the mapped task list (a snapshot of the
buffer taken at call time, in order) and the buffer is then cleared;
an empty buffer skips everything. -/
def flushStandbyChanges (now : Nat) (s : LDMState) : LDMState × List Effect :=
  if s.standbyChanges.length ≠ 0 then
    let r := runFlushTasks now s.standbyChanges s
    ({ r.1 with standbyChanges := [] }, r.2)
  else
    (s, [])

/-- The change infos submitted to the upload queue, in submission order,
as recorded in a trace. -/
def enqueuedInfos : List Effect → List ChangeInfo
  | [] => []
  | .enqueueTask i :: rest => i :: enqueuedInfos rest
  | _ :: rest => enqueuedInfos rest

/-- `handlePreventedUpload(changeInfo)`: permission `never` shows the
`noUploadsAllowed` status; permission `manual` shows the manual-approval
prompt and adds the change to the standby buffer unless an entry with the
same `filePath` is already present. -/
def handlePreventedUpload (ctx : Ctx) (info : ChangeInfo) (s : LDMState) :
    LDMState × List Effect :=
  if s.uploadPermission = .never then
    ({ s with devModeStatus := .noUploadsAllowed }, [.spinniesAdd "noUploadsAllowed"])
  else
    let s₁ := { s with devModeStatus := .manualUploadRequired }
    let s₂ :=
      if s₁.standbyChanges.any (fun c => c.info.filePath == info.filePath) then s₁
      else addChangeToStandbyQueue ctx { info := info, supported := false } s₁
    (s₂, [.spinniesAdd "manualUploadRequired", .spinniesAdd "manualUploadExplanation1",
          .spinniesAdd "manualUploadExplanation2", .spinniesAdd "manualUploadPrompt"])

/-- `handleWatchEvent(filePath, event)`: a path containing `dist` is
skipped outright; otherwise the dev-server bridge classifies the change;
supported changes run locally, upload-required changes go through the
permission policy, the standby buffer (queue paused) or the upload queue
with the debounced build trigger (queue running). -/
def handleWatchEvent (ctx : Ctx) (now : Nat) (notifyOutcome : NotifyOutcome)
    (filePath : String) (event : WatchEvent) (s : LDMState) : LDMState × List Effect :=
  let changeInfo : ChangeInfo :=
    { event := event, filePath := filePath, remotePath := ctx.relPath filePath }
  if includesDist changeInfo.filePath then
    (s, [])
  else
    let n := notifyServers changeInfo notifyOutcome
    if n.1.uploadRequired = false then
      let s₁ := { s with devModeStatus := .supportedChange }
      let s₂ := addChangeToStandbyQueue ctx { info := changeInfo, supported := true } s₁
      (s₂, n.2 ++ [.executeCall changeInfo])
    else if s.uploadPermission ≠ .always then
      let r := handlePreventedUpload ctx changeInfo s
      (r.1, n.2 ++ r.2)
    else if s.queuePaused = true then
      if s.standbyChanges.any (fun c => c.info.filePath == filePath) then
        (s, n.2)
      else
        (addChangeToStandbyQueue ctx { info := changeInfo, supported := false } s, n.2)
    else
      let f := flushStandbyChanges now s
      let d := if f.1.queuePaused = false then debounceQueueBuild now f.1 else (f.1, [])
      (d.1, n.2 ++ f.2 ++ d.2 ++ [.enqueueTask changeInfo] ++ sendChanges changeInfo)

/-- `createNewStagingBuild()`: `provisionBuild` assigns
`currentStagedBuildId`; on failure a locked project first cancels the
stale staged build, and either way the process exits with the error code.
The returned flag records whether the process exited. -/
def createNewStagingBuild (prov : ProvisionOutcome) (s : LDMState) :
    LDMState × List Effect × Bool :=
  match prov with
  | .ok buildId =>
    ({ s with currentStagedBuildId := some buildId }, [.provisionCall], false)
  | .lockedError =>
    (s, [.provisionCall, .logDebug, .cancelStagedBuildCall,
         .logInfo "previousStagingBuildCancelled", .processExit .error], true)
  | .otherError =>
    (s, [.provisionCall, .logDebug, .processExit .error], true)

/-- The tail of `queueBuild` after the upload queue restarts: flush the
standby buffer when it still holds unsupported changes, else show `clean`. -/
def queueBuildFinish (now : Nat) (s : LDMState) (acc : List Effect) :
    LDMState × List Effect :=
  if hasAnyUnsupportedStandbyChanges s = true then
    let f := flushStandbyChanges now s
    (f.1, acc ++ f.2)
  else
    ({ s with devModeStatus := .clean }, acc)

/-- `queueBuild()`: pause and drain the upload queue, then issue the remote
`queueBuild` call.  A `MISSING_PROJECT_PROVISION` failure stops the whole
session; any other failure is reported through `logApiErrorInstance` and
the method returns with the queue still paused.  On success the build is
polled to deployment, a new staging build is provisioned under permission
`always`, the queue restarts and remaining standby changes are flushed. -/
def queueBuild (now : Nat) (qb : QueueBuildOutcome) (prov : ProvisionOutcome)
    (s : LDMState) : LDMState × List Effect :=
  let e₀ : List Effect := [.spinniesAdd "uploadingChanges"]
  let p := pauseUploadQueue s
  match qb with
  | .missingProvision =>
    (p.1, e₀ ++ p.2 ++ [.queueBuildCall, .logDebug, .logInfo "cancelledFromUI", .stopSession])
  | .otherError =>
    (p.1, e₀ ++ p.2 ++ [.queueBuildCall, .logDebug, .logApiError])
  | .ok =>
    let e₁ := e₀ ++ p.2 ++ [Effect.queueBuildCall, Effect.pollCall,
      Effect.spinniesUpdate "uploadedChanges"]
    if p.1.uploadPermission = .always then
      let c := createNewStagingBuild prov p.1
      if c.2.2 = true then
        (c.1, e₁ ++ c.2.1)
      else
        queueBuildFinish now { c.1 with queuePaused := false }
          (e₁ ++ c.2.1 ++ [.queueStart])
    else
      queueBuildFinish now { p.1 with queuePaused := false } (e₁ ++ [.queueStart])

/-- The `y` branch of the manual-approval keypress handler: confirm,
set status `manualUpload`, `createNewStagingBuild`, `flushStandbyChanges`,
then `queueBuild` — manual approval is itself the build trigger. -/
def manualUploadAccept (now : Nat) (prov provAfter : ProvisionOutcome)
    (qb : QueueBuildOutcome) (s : LDMState) : LDMState × List Effect :=
  let e₀ : List Effect := [.spinniesAdd "manualUploadConfirmed"]
  let s₀ := { s with devModeStatus := DevModeStatus.manualUpload }
  let c := createNewStagingBuild prov s₀
  if c.2.2 = true then
    (c.1, e₀ ++ c.2.1)
  else
    let f := flushStandbyChanges now c.1
    let q := queueBuild now qb provAfter f.1
    (q.1, e₀ ++ c.2.1 ++ f.2 ++ q.2)

/-- `stop()`: stop watching, clean up the dev servers, cancel the staged
build when one is open (`BUILD_NOT_IN_PROGRESS` is benign, any other
cancel failure flips the exit code), then `process.exit`. -/
def stop (cancel : CancelOutcome) (s : LDMState) : List Effect :=
  let pre : List Effect := [.spinniesAdd "cleanupMessage", .watcherClose, .cleanupServers]
  match s.currentStagedBuildId with
  | none =>
    pre ++ [.spinniesUpdate "exitingSucceed", .processExit .success]
  | some _ =>
    match cancel with
    | .ok =>
      pre ++ [.cancelStagedBuildCall, .spinniesUpdate "exitingSucceed",
        .processExit .success]
    | .buildNotInProgress =>
      pre ++ [.cancelStagedBuildCall, .spinniesUpdate "exitingSucceed",
        .processExit .success]
    | .otherError =>
      pre ++ [.cancelStagedBuildCall, .logApiError, .spinniesUpdate "exitingFail",
        .processExit .error]

/-- `projectConfig` objects carried in the constructor options. -/
structure ProjectConfig where
  name : String
  srcDir : String
deriving DecidableEq, BEq, Repr

/-- The constructor options of `LocalDevManager` that the initialization
logic reads (`port` and `debug` do not affect it). -/
structure InitOptions where
  targetAccountId : Option Nat
  projectConfig : Option ProjectConfig
  projectDir : Option String
  uploadPermission : Option UploadPermission
deriving Repr

/-- How construction of a `LocalDevManager` can end. -/
inductive InitResult
  | thrownTypeError
  | exitedWithLog (code : ExitCode)
  | ok (sourceDir : String) (s : LDMState)
deriving DecidableEq, BEq, Repr

/-- The `LocalDevManager` constructor.  The field assignments run first:
`path.join(this.projectDir, this.projectConfig.srcDir)` throws a
`TypeError` when `projectDir` or `projectConfig` is absent (reading
`srcDir` of `undefined`, or `path.join` on a non-string), so the
missing-configuration guard that logs `failedToInitialize` and calls
`process.exit(EXIT_CODES.ERROR)` is reached only with both present, where
it can only fire for a missing `targetAccountId`. -/
def localDevManagerInit (joinPath : String → String → String) (o : InitOptions) :
    InitResult :=
  match o.projectDir, o.projectConfig with
  | some dir, some cfg =>
    let sourceDir := joinPath dir cfg.srcDir
    match o.targetAccountId with
    | none => .exitedWithLog .error
    | some _ =>
      .ok sourceDir
        { uploadPermission := o.uploadPermission.getD .always
          standbyChanges := []
          debouncedBuild := none
          currentStagedBuildId := none
          queuePaused := false
          devModeStatus := .clean }
  | _, _ => .thrownTypeError

/-- Discrete-time semantics of the debounce timer slot: given the times of
successive `debounceQueueBuild` calls (nondecreasing), count how often the
timer expires — each expiry is one `queueBuild` invocation.  A pending
timer whose expiry is at or before the next arm time has already fired;
the arm then re-fills the single slot; a timer still pending when the
burst ends fires once the quiet period elapses. -/
def debounceFirings : List Nat → Option Nat → Nat
  | [], none => 0
  | [], some _ => 1
  | t :: ts, pending =>
    (match pending with
     | some expiry => if expiry ≤ t then 1 else 0
     | none => 0) + debounceFirings ts (armDebounceTimer t pending)

/-- The classification an outcome of the bridge `notify` call yields:
a rejection leaves the conservative default `uploadRequired = true`. -/
def notifyUploadRequired : NotifyOutcome → Bool
  | .ok r => r.uploadRequired
  | .err => true

/-- Scan of a trace checking the drain discipline: walking the effects
while tracking whether the upload queue is paused and whether it has been
drained (`onIdle` observed while paused), every remote `queueBuildCall`
must happen in a paused-and-drained queue state.  `queueStart` resets both
flags. -/
def drainOk : List Effect → Bool → Bool → Bool
  | [], _, _ => true
  | e :: rest, p, d =>
    match e with
    | .queueBuildCall => p && d && drainOk rest p d
    | .pauseQueue => drainOk rest true d
    | .onIdle => drainOk rest p p
    | .queueStart => drainOk rest false false
    | _ => drainOk rest p d

/-- Effects that neither touch the upload-queue run state nor issue the
remote queue-build call. -/
def queueNeutral : Effect → Bool
  | .queueBuildCall => false
  | .pauseQueue => false
  | .onIdle => false
  | .queueStart => false
  | _ => true

/-- The effects an upload-queue task body can emit (submission marker,
debounce re-arm, status lines, the upload or delete API call). -/
def isTaskEffect : Effect → Bool
  | .enqueueTask _ => true
  | .armDebounce => true
  | .spinniesAdd _ => true
  | .spinniesUpdate _ => true
  | .uploadFileCall _ _ => true
  | .deleteFileCall _ => true
  | _ => false

/-- Sample collaborators for concrete runs: `.jsx` files pass the
extension allow-list, `node_modules` paths are ignored, remote paths
are taken verbatim. -/
def sampleCtx : Ctx :=
  { allowedExt := fun p => hasSubstring ".jsx".toList p.toList
    ignoreFile := fun p => hasSubstring "node_modules".toList p.toList
    relPath := fun p => p }

/-- A sample running session under permission `always` with a staged build. -/
def sampleState : LDMState :=
  { uploadPermission := .always
    standbyChanges := []
    debouncedBuild := none
    currentStagedBuildId := some 42
    queuePaused := false
    devModeStatus := .clean }

/-- A sample session under permission `never`. -/
def sampleNeverState : LDMState :=
  { sampleState with uploadPermission := .never }

/-- A sample change record. -/
def sampleChange (p : String) (e : WatchEvent) : ChangeInfo :=
  { event := e, filePath := p, remotePath := p }

/-- A sample session with three unsupported changes waiting in the standby
buffer, in insertion order `a.jsx`, `b.jsx`, `c.jsx`. -/
def sampleBufferState : LDMState :=
  { sampleState with standbyChanges :=
      [ { info := sampleChange "a.jsx" .add, supported := false }
      , { info := sampleChange "b.jsx" .change, supported := false }
      , { info := sampleChange "c.jsx" .unlink, supported := false } ] }

/-- A sample session with no staged build open. -/
def sampleStoppedState : LDMState :=
  { sampleState with currentStagedBuildId := none }

/- ------------------------------------------------------------------ -/
/- Helper lemmas                                                       -/
/- ------------------------------------------------------------------ -/

theorem enqueuedInfos_append (t₁ t₂ : List Effect) :
    enqueuedInfos (t₁ ++ t₂) = enqueuedInfos t₁ ++ enqueuedInfos t₂ := by
  induction t₁ with
  | nil => rfl
  | cons e rest ih => cases e <;> simp [enqueuedInfos, ih]

theorem enqueuedInfos_sendChanges (info : ChangeInfo) :
    enqueuedInfos (sendChanges info) = [] := by
  rcases info with ⟨e, f, r⟩
  cases e <;> rfl

theorem enqueuedInfos_runFlushTask (now : Nat) (c : StandbyChange) (s : LDMState) :
    enqueuedInfos (runFlushTask now c s).2 = [c.info] := by
  rcases c with ⟨⟨ev, f, r⟩, sup⟩
  unfold runFlushTask
  split <;> cases ev <;>
    simp [debounceQueueBuild, sendChanges, enqueuedInfos]

theorem enqueuedInfos_runFlushTasks (now : Nat) (cs : List StandbyChange) (s : LDMState) :
    enqueuedInfos (runFlushTasks now cs s).2 = cs.map (fun c => c.info) := by
  induction cs generalizing s with
  | nil => rfl
  | cons c rest ih =>
    simp [runFlushTasks, enqueuedInfos_append, enqueuedInfos_runFlushTask, ih]

theorem sendChanges_isTaskEffect {e : Effect} {info : ChangeInfo}
    (h : e ∈ sendChanges info) : isTaskEffect e = true := by
  rcases info with ⟨ev, f, r⟩
  cases ev <;> simp [sendChanges] at h <;>
    rcases h with rfl | rfl | rfl <;> rfl

theorem runFlushTask_isTaskEffect {now : Nat} {c : StandbyChange} {s : LDMState}
    {e : Effect} (h : e ∈ (runFlushTask now c s).2) : isTaskEffect e = true := by
  unfold runFlushTask at h
  split at h
  · simp [debounceQueueBuild] at h
    rcases h with rfl | rfl | h
    · rfl
    · rfl
    · exact sendChanges_isTaskEffect h
  · simp at h
    rcases h with rfl | h
    · rfl
    · exact sendChanges_isTaskEffect h

theorem runFlushTasks_isTaskEffect : ∀ {now : Nat} {cs : List StandbyChange}
    {s : LDMState} {e : Effect}, e ∈ (runFlushTasks now cs s).2 → isTaskEffect e = true := by
  intro now cs
  induction cs with
  | nil => intro s e h; simp [runFlushTasks] at h
  | cons c rest ih =>
    intro s e h
    simp [runFlushTasks] at h
    rcases h with h | h
    · exact runFlushTask_isTaskEffect h
    · exact ih h

theorem flush_isTaskEffect {now : Nat} {s : LDMState} {e : Effect}
    (h : e ∈ (flushStandbyChanges now s).2) : isTaskEffect e = true := by
  unfold flushStandbyChanges at h
  split at h
  · exact runFlushTasks_isTaskEffect h
  · simp at h

theorem isTaskEffect_queueNeutral {e : Effect} (h : isTaskEffect e = true) :
    queueNeutral e = true := by
  cases e <;> first | rfl | simp [isTaskEffect] at h

theorem qbc_not_mem_flush (now : Nat) (s : LDMState) :
    Effect.queueBuildCall ∉ (flushStandbyChanges now s).2 := by
  intro h
  simpa [isTaskEffect] using flush_isTaskEffect h

theorem drainOk_of_not_mem : ∀ (t : List Effect), Effect.queueBuildCall ∉ t →
    ∀ p d : Bool, drainOk t p d = true := by
  intro t
  induction t with
  | nil => intro _ _ _; rfl
  | cons e rest ih =>
    intro h p d
    have hrest : Effect.queueBuildCall ∉ rest := fun hm => h (List.mem_cons_of_mem e hm)
    cases e <;>
      first
        | exact absurd (List.mem_cons_self _ _) h
        | exact ih hrest _ _

theorem drainOk_append_neutral : ∀ (t₁ : List Effect),
    (∀ e ∈ t₁, queueNeutral e = true) → ∀ (t₂ : List Effect) (p d : Bool),
    drainOk (t₁ ++ t₂) p d = drainOk t₂ p d := by
  intro t₁
  induction t₁ with
  | nil => intro _ t₂ p d; rfl
  | cons e rest ih =>
    intro h t₂ p d
    have he := h e (List.mem_cons_self e rest)
    have hrest : ∀ x ∈ rest, queueNeutral x = true :=
      fun x hx => h x (List.mem_cons_of_mem e hx)
    cases e
    case queueBuildCall => simp [queueNeutral] at he
    case pauseQueue => simp [queueNeutral] at he
    case onIdle => simp [queueNeutral] at he
    case queueStart => simp [queueNeutral] at he
    all_goals exact ih hrest t₂ p d

theorem executeCall_not_mem_sendChanges (info i : ChangeInfo) :
    Effect.executeCall i ∉ sendChanges info :=
  fun h => by simpa [isTaskEffect] using sendChanges_isTaskEffect h

theorem executeCall_not_mem_flush (now : Nat) (s : LDMState) (i : ChangeInfo) :
    Effect.executeCall i ∉ (flushStandbyChanges now s).2 :=
  fun h => by simpa [isTaskEffect] using flush_isTaskEffect h

theorem executeCall_not_mem_prevented (ctx : Ctx) (info : ChangeInfo) (s : LDMState)
    (i : ChangeInfo) : Effect.executeCall i ∉ (handlePreventedUpload ctx info s).2 := by
  unfold handlePreventedUpload
  split <;> simp

/-- When the bridge `notify` call rejects, the supported-change branch of
`handleWatchEvent` (and with it `DevServerManager.execute`) is unreachable:
the event is routed as upload-required. -/
theorem executeCall_not_mem_handleWatchEvent_err (ctx : Ctx) (now : Nat)
    (filePath : String) (event : WatchEvent) (s : LDMState) (i : ChangeInfo) :
    Effect.executeCall i ∉ (handleWatchEvent ctx now .err filePath event s).2 := by
  by_cases hdist : includesDist filePath = true
  · simp [handleWatchEvent, hdist]
  · by_cases hperm : s.uploadPermission ≠ UploadPermission.always
    · simp [handleWatchEvent, hdist, notifyServers, hperm]
      exact executeCall_not_mem_prevented ctx _ s i
    · by_cases hq : s.queuePaused = true
      · by_cases hfind : s.standbyChanges.any
            (fun c => c.info.filePath == filePath) = true
        · simp [handleWatchEvent, hdist, notifyServers, hperm, hq, hfind]
        · simp [handleWatchEvent, hdist, notifyServers, hperm, hq, hfind]
      · by_cases hq2 : (flushStandbyChanges now s).1.queuePaused = false
        · simp [handleWatchEvent, hdist, notifyServers, hperm, hq, hq2, debounceQueueBuild]
          exact ⟨executeCall_not_mem_flush now s i,
                 executeCall_not_mem_sendChanges _ i⟩
        · simp [handleWatchEvent, hdist, notifyServers, hperm, hq, hq2]
          exact ⟨executeCall_not_mem_flush now s i,
                 executeCall_not_mem_sendChanges _ i⟩

theorem drainOk_queueBuild (now : Nat) (qb : QueueBuildOutcome) (prov : ProvisionOutcome)
    (s : LDMState) (p d : Bool) : drainOk (queueBuild now qb prov s).2 p d = true := by
  cases qb
  case missingProvision => rfl
  case otherError => rfl
  case ok =>
    unfold queueBuild queueBuildFinish
    dsimp only
    by_cases hperm : (pauseUploadQueue s).1.uploadPermission = UploadPermission.always
    · rw [if_pos hperm]
      cases prov
      · simp only [createNewStagingBuild]
        split
        · rfl
        · split
          · exact drainOk_of_not_mem _ (qbc_not_mem_flush _ _) _ _
          · rfl
      · rfl
      · rfl
    · rw [if_neg hperm]
      split
      · exact drainOk_of_not_mem _ (qbc_not_mem_flush _ _) _ _
      · rfl

theorem flush_queueNeutral (now : Nat) (s : LDMState) :
    ∀ e ∈ (flushStandbyChanges now s).2, queueNeutral e = true :=
  fun _ he => isTaskEffect_queueNeutral (flush_isTaskEffect he)

theorem debounceFirings_pending : ∀ (ts : List Nat) (expiry : Nat),
    (∀ b ∈ ts.head?, b < expiry) →
    List.Chain' (fun a b => b < a + BUILD_DEBOUNCE_TIME) ts →
    debounceFirings ts (some expiry) = 1 := by
  intro ts
  induction ts with
  | nil => intro _ _ _; rfl
  | cons t rest ih =>
    intro expiry hhead hchain
    have ht : t < expiry := hhead t rfl
    rw [List.chain'_cons'] at hchain
    have hstep : debounceFirings (t :: rest) (some expiry)
        = (if expiry ≤ t then 1 else 0)
          + debounceFirings rest (some (t + BUILD_DEBOUNCE_TIME)) := rfl
    rw [hstep, if_neg (Nat.not_le.mpr ht), Nat.zero_add]
    exact ih (t + BUILD_DEBOUNCE_TIME) hchain.1 hchain.2

/- ------------------------------------------------------------------ -/
/- Claim theorems                                                      -/
/- ------------------------------------------------------------------ -/

/-- C2: the debounced build trigger is a single-slot timer — each arm call
replaces any pending timer with a fresh `BUILD_DEBOUNCE_TIME` countdown,
so any burst of N ≥ 1 arm calls in which every next call arrives strictly
before the pending timer expires produces exactly one firing (one
`queueBuild` invocation), not N. -/
theorem debounce_coalesces_burst_to_one (t : Nat) (ts : List Nat)
    (hquiet : List.Chain' (fun a b => b < a + BUILD_DEBOUNCE_TIME) (t :: ts)) :
    debounceFirings (t :: ts) none = 1 := by
  rw [List.chain'_cons'] at hquiet
  have hstep : debounceFirings (t :: ts) none
      = 0 + debounceFirings ts (some (t + BUILD_DEBOUNCE_TIME)) := rfl
  rw [hstep, Nat.zero_add]
  exact debounceFirings_pending ts (t + BUILD_DEBOUNCE_TIME) hquiet.1 hquiet.2

/-- Witness for C2: four arm calls inside the quiet window fire once. -/
theorem debounce_coalesces_burst_to_one_witness :
    List.Chain' (fun a b => b < a + BUILD_DEBOUNCE_TIME) [0, 1500, 3000, 4000]
  ∧ debounceFirings [0, 1500, 3000, 4000] none = 1 :=
  ⟨by simp [List.chain'_cons, BUILD_DEBOUNCE_TIME],
   debounce_coalesces_burst_to_one 0 [1500, 3000, 4000]
     (by simp [List.chain'_cons, BUILD_DEBOUNCE_TIME])⟩

/-- C3: `flushStandbyChanges` snapshots the standby buffer, clears it, and
submits one upload-queue task per snapshotted entry in insertion order;
on an empty buffer it is a no-op. -/
theorem flush_snapshots_clears_preserves_order (now : Nat) (s : LDMState) :
    (flushStandbyChanges now s).1.standbyChanges = []
  ∧ enqueuedInfos (flushStandbyChanges now s).2 = s.standbyChanges.map (fun c => c.info)
  ∧ (s.standbyChanges = [] → flushStandbyChanges now s = (s, [])) := by
  refine ⟨?_, ?_, ?_⟩
  · unfold flushStandbyChanges
    split
    · rfl
    · next h => exact List.length_eq_zero.mp (not_ne_iff.mp h)
  · unfold flushStandbyChanges
    split
    · exact enqueuedInfos_runFlushTasks now s.standbyChanges s
    · next h =>
      have h0 : s.standbyChanges = [] := List.length_eq_zero.mp (not_ne_iff.mp h)
      simp [h0, enqueuedInfos]
  · intro h
    simp [flushStandbyChanges, h]

/-- Witness for C3: the empty buffer is a no-op; the three-entry buffer
`[a.jsx, b.jsx, c.jsx]` flushes to tasks in that order. -/
theorem flush_snapshots_clears_preserves_order_witness :
    sampleState.standbyChanges = []
  ∧ flushStandbyChanges 0 sampleState = (sampleState, [])
  ∧ enqueuedInfos (flushStandbyChanges 0 sampleBufferState).2
      = sampleBufferState.standbyChanges.map (fun c => c.info) :=
  ⟨rfl, (flush_snapshots_clears_preserves_order 0 sampleState).2.2 rfl,
   (flush_snapshots_clears_preserves_order 0 sampleBufferState).2.1⟩

/-- C1: whenever `queueBuild` runs — directly (debounce-timer expiry) or
through the manual-approval accept path — the trace pauses the upload
queue and observes `onIdle` (drain) strictly before the remote
`queueBuildCall` is issued, from any initial paused/drained flags: a
build is never queued while uploads are still in flight. -/
theorem queueBuild_pauses_and_drains_before_queue_call (now : Nat)
    (qb : QueueBuildOutcome) (prov provA provB : ProvisionOutcome)
    (s : LDMState) (p d : Bool) :
    drainOk (queueBuild now qb prov s).2 p d = true
  ∧ drainOk (manualUploadAccept now provA provB qb s).2 p d = true := by
  refine ⟨drainOk_queueBuild now qb prov s p d, ?_⟩
  unfold manualUploadAccept
  cases provA
  · simp only [createNewStagingBuild]
    show drainOk ((flushStandbyChanges now _).2 ++ (queueBuild now qb provB _).2) p d = true
    rw [drainOk_append_neutral _ (flush_queueNeutral now _)]
    exact drainOk_queueBuild now qb provB _ p d
  · rfl
  · rfl

/-- C4: a rejected bridge `notify` call yields the conservative
classification `uploadRequired = true`, surfaces the non-fatal
`devServerNotifyError` status line, and the supported-change branch
(`DevServerManager.execute`) is never taken for such an event. -/
theorem notify_reject_fails_safe (ctx : Ctx) (now : Nat) (info : ChangeInfo)
    (filePath : String) (event : WatchEvent) (s : LDMState) :
    (notifyServers info .err).1.uploadRequired = true
  ∧ Effect.spinniesAdd "devServerNotifyError" ∈ (notifyServers info .err).2
  ∧ (∀ i, Effect.executeCall i ∉ (handleWatchEvent ctx now .err filePath event s).2) :=
  ⟨rfl, by simp [notifyServers],
   fun i => executeCall_not_mem_handleWatchEvent_err ctx now filePath event s i⟩

/-- C5: under `UploadPermission = never`, `handleWatchEvent` never reaches
`uploadFileToBuild` or `deleteFileFromBuild` (nor even submits an upload
task), and an upload-required change instead sets the dev-mode status to
`noUploadsAllowed`. -/
theorem permission_never_blocks_all_uploads (ctx : Ctx) (now : Nat)
    (outcome : NotifyOutcome) (filePath : String) (event : WatchEvent) (s : LDMState)
    (hperm : s.uploadPermission = .never) :
    (∀ f r, Effect.uploadFileCall f r ∉ (handleWatchEvent ctx now outcome filePath event s).2)
  ∧ (∀ r, Effect.deleteFileCall r ∉ (handleWatchEvent ctx now outcome filePath event s).2)
  ∧ (∀ i, Effect.enqueueTask i ∉ (handleWatchEvent ctx now outcome filePath event s).2)
  ∧ (includesDist filePath = false → notifyUploadRequired outcome = true →
      (handleWatchEvent ctx now outcome filePath event s).1.devModeStatus = .noUploadsAllowed) := by
  by_cases hdist : includesDist filePath = true
  · simp [handleWatchEvent, hdist]
  · cases outcome with
    | err =>
      simp [handleWatchEvent, hdist, notifyServers, hperm, handlePreventedUpload,
        notifyUploadRequired]
    | ok r =>
      rcases r with ⟨ur⟩
      cases ur
      · simp [handleWatchEvent, hdist, notifyServers, hperm, notifyUploadRequired]
      · simp [handleWatchEvent, hdist, notifyServers, hperm, handlePreventedUpload,
          notifyUploadRequired]

/-- Witness for C5: a concrete upload-required change under permission
`never` ends with the `noUploadsAllowed` status. -/
theorem permission_never_blocks_all_uploads_witness :
    sampleNeverState.uploadPermission = .never
  ∧ (handleWatchEvent sampleCtx 0 (.ok { uploadRequired := true }) "x.jsx" .change
       sampleNeverState).1.devModeStatus = .noUploadsAllowed :=
  ⟨rfl, (permission_never_blocks_all_uploads sampleCtx 0 (.ok { uploadRequired := true })
      "x.jsx" .change sampleNeverState rfl).2.2.2 (by decide) rfl⟩

/-- C6: a `MISSING_PROJECT_PROVISION` failure of the remote `queueBuild`
call stops the session via `stop()` (no API-error report, no error exit
inside `queueBuild`); any other failure is reported through
`logApiErrorInstance`, does not stop the session, queues and deploys
nothing, restarts nothing, and leaves the upload queue paused with the
staged build and the standby buffer untouched. -/
theorem queueBuild_failure_handling (now : Nat) (prov : ProvisionOutcome) (s : LDMState) :
    (Effect.stopSession ∈ (queueBuild now .missingProvision prov s).2
     ∧ Effect.logApiError ∉ (queueBuild now .missingProvision prov s).2
     ∧ Effect.processExit .error ∉ (queueBuild now .missingProvision prov s).2)
  ∧ (Effect.logApiError ∈ (queueBuild now .otherError prov s).2
     ∧ Effect.stopSession ∉ (queueBuild now .otherError prov s).2
     ∧ Effect.pollCall ∉ (queueBuild now .otherError prov s).2
     ∧ Effect.queueStart ∉ (queueBuild now .otherError prov s).2
     ∧ Effect.provisionCall ∉ (queueBuild now .otherError prov s).2
     ∧ (queueBuild now .otherError prov s).1.queuePaused = true
     ∧ (queueBuild now .otherError prov s).1.currentStagedBuildId = s.currentStagedBuildId
     ∧ (queueBuild now .otherError prov s).1.standbyChanges = s.standbyChanges) := by
  refine ⟨⟨?_, ?_, ?_⟩, ?_, ?_, ?_, ?_, ?_, ?_, ?_, ?_⟩ <;>
    simp [queueBuild, pauseUploadQueue]

/-- C7: `stop()` with no staged build performs no cancel call and exits
with the success code; with a staged build it cancels exactly once,
treats `BUILD_NOT_IN_PROGRESS` as success, and any other cancel failure
exits with the error code — but still exits. -/
theorem stop_cancel_idempotence_and_exit_codes (cancel : CancelOutcome) (s : LDMState) :
    (s.currentStagedBuildId = none →
       (stop cancel s).count .cancelStagedBuildCall = 0
       ∧ Effect.processExit .success ∈ stop cancel s)
  ∧ (∀ b, s.currentStagedBuildId = some b →
       (stop cancel s).count .cancelStagedBuildCall = 1
       ∧ (cancel = .buildNotInProgress →
            (stop cancel s).getLast? = some (.processExit .success))
       ∧ (cancel = .otherError →
            Effect.logApiError ∈ stop cancel s
            ∧ (stop cancel s).getLast? = some (.processExit .error))) := by
  constructor
  · intro h
    cases cancel <;> (simp [stop, h]; decide)
  · intro b h
    cases cancel <;>
      (refine ⟨?_, ?_, ?_⟩ <;> (simp [stop, h]; try decide))

/-- Witness for C7: concrete shutdowns with and without a staged build. -/
theorem stop_cancel_idempotence_and_exit_codes_witness :
    sampleStoppedState.currentStagedBuildId = none
  ∧ ((stop .ok sampleStoppedState).count .cancelStagedBuildCall = 0
     ∧ Effect.processExit .success ∈ stop .ok sampleStoppedState)
  ∧ sampleState.currentStagedBuildId = some 42
  ∧ (stop .buildNotInProgress sampleState).count .cancelStagedBuildCall = 1
  ∧ (stop .buildNotInProgress sampleState).getLast? = some (.processExit .success)
  ∧ Effect.logApiError ∈ stop .otherError sampleState
  ∧ (stop .otherError sampleState).getLast? = some (.processExit .error) :=
  ⟨rfl, (stop_cancel_idempotence_and_exit_codes .ok sampleStoppedState).1 rfl, rfl,
   ((stop_cancel_idempotence_and_exit_codes .buildNotInProgress sampleState).2 42 rfl).1,
   ((stop_cancel_idempotence_and_exit_codes .buildNotInProgress sampleState).2 42 rfl).2.1 rfl,
   (((stop_cancel_idempotence_and_exit_codes .otherError sampleState).2 42 rfl).2.2 rfl).1,
   (((stop_cancel_idempotence_and_exit_codes .otherError sampleState).2 42 rfl).2.2 rfl).2⟩

/-- C8 (code refutation): with `projectConfig` or `projectDir` absent, the
constructor throws a `TypeError` from the `projectSourceDir` computation
(`path.join(this.projectDir, this.projectConfig.srcDir)`) that runs
before the missing-configuration guard, so it never logs
`failedToInitialize` nor exits with the error status code; only a missing
`targetAccountId` (with the other two present) reaches that guarded
logged exit. -/
theorem init_missing_config_throws_before_guard :
    localDevManagerInit (fun a b => a ++ "/" ++ b)
      { targetAccountId := some 123, projectConfig := none,
        projectDir := some "/proj", uploadPermission := none }
      = .thrownTypeError
  ∧ localDevManagerInit (fun a b => a ++ "/" ++ b)
      { targetAccountId := some 123, projectConfig := some { name := "p", srcDir := "src" },
        projectDir := none, uploadPermission := none }
      = .thrownTypeError
  ∧ localDevManagerInit (fun a b => a ++ "/" ++ b)
      { targetAccountId := none, projectConfig := some { name := "p", srcDir := "src" },
        projectDir := some "/proj", uploadPermission := none }
      = .exitedWithLog .error :=
  ⟨rfl, rfl, rfl⟩

/-- C9: `addChangeToStandbyQueue` appends to the buffer, except that
`add`/`change` events failing the extension allow-list are dropped,
`unlink`/`unlinkDir` events bypass that check, and any event matching the
ignore rules never enters the buffer. -/
theorem standby_push_filter_semantics (ctx : Ctx) (c : StandbyChange) (s : LDMState) :
    (ctx.ignoreFile c.info.filePath = true → addChangeToStandbyQueue ctx c s = s)
  ∧ ((c.info.event = .add ∨ c.info.event = .change) →
       ctx.allowedExt c.info.filePath = false → addChangeToStandbyQueue ctx c s = s)
  ∧ ((c.info.event = .unlink ∨ c.info.event = .unlinkDir) →
       ctx.ignoreFile c.info.filePath = false →
       (addChangeToStandbyQueue ctx c s).standbyChanges = s.standbyChanges ++ [c])
  ∧ ((c.info.event = .add ∨ c.info.event = .change) →
       ctx.allowedExt c.info.filePath = true → ctx.ignoreFile c.info.filePath = false →
       (addChangeToStandbyQueue ctx c s).standbyChanges = s.standbyChanges ++ [c]) := by
  refine ⟨?_, ?_, ?_, ?_⟩
  · intro hig
    unfold addChangeToStandbyQueue
    split
    · rfl
    · simp [hig]
  · rintro (h | h) hext <;> simp [addChangeToStandbyQueue, h, hext]
  · rintro (h | h) hig <;> simp [addChangeToStandbyQueue, h, hig]
  · rintro (h | h) hext hig <;> simp [addChangeToStandbyQueue, h, hext, hig]

/-- Witness for C9: a `.txt` deletion bypasses the extension allow-list
and is appended, while a `.txt` addition is dropped by it. -/
theorem standby_push_filter_semantics_witness :
    sampleCtx.ignoreFile "c.txt" = false
  ∧ (addChangeToStandbyQueue sampleCtx
      { info := sampleChange "c.txt" .unlink, supported := false } sampleState).standbyChanges
      = sampleState.standbyChanges ++ [{ info := sampleChange "c.txt" .unlink, supported := false }]
  ∧ sampleCtx.allowedExt "a.txt" = false
  ∧ addChangeToStandbyQueue sampleCtx
      { info := sampleChange "a.txt" .add, supported := false } sampleState = sampleState :=
  ⟨by decide,
   (standby_push_filter_semantics sampleCtx _ sampleState).2.2.1 (Or.inl rfl) (by decide),
   by decide,
   (standby_push_filter_semantics sampleCtx _ sampleState).2.1 (Or.inl rfl) (by decide)⟩

/-- C10: a watch event whose absolute path contains the substring `dist`
is dropped before anything happens: state unchanged, empty trace (no
notify, no buffering, no enqueue, no debounce, no status change). -/
theorem dist_path_event_is_noop (ctx : Ctx) (now : Nat) (o : NotifyOutcome)
    (filePath : String) (event : WatchEvent) (s : LDMState)
    (h : includesDist filePath = true) :
    handleWatchEvent ctx now o filePath event s = (s, []) := by
  unfold handleWatchEvent
  simp [h]

/-- Witness for C10: a concrete path containing `dist` is a no-op. -/
theorem dist_path_event_is_noop_witness :
    includesDist "src/dist/x.jsx" = true
  ∧ handleWatchEvent sampleCtx 0 .err "src/dist/x.jsx" .change sampleState
      = (sampleState, []) :=
  ⟨by decide,
   dist_path_event_is_noop sampleCtx 0 .err "src/dist/x.jsx" .change sampleState (by decide)⟩

end LocalDevMgr
